import Mathlib

/-!
Shallow embedding of the analytics core of the Hackathon-Project-1 repository.

Source files:
* `src/main.go` — spending analyzer (`analyzeTransactions`, `categorizeTransaction`,
  `calculateVelocity`) and subscription detector (`analyzeForSubscriptions`,
  `isRegularPattern`, `detectFrequency`, `calculateConfidence`,
  `calculateTotalMonthlyCost`, `generateWarnings`).
* `src/unnamed/part_000` — TypeScript hook with a second copy of the categorizer
  (`categorizeTransaction`) and `calculateSpending`.

Modelling conventions:
* Go `float64` / JS `number` values are modelled as exact rationals (`ℚ`); the
  claims under consideration are stated at rational precision.
* Timestamps (`time.Time`) are modelled as whole seconds (`ℤ`) since the epoch, UTC.
  `time.Duration.Hours()/24` of a gap of `s` seconds equals `s / 86400` exactly.
* Strings are Go/TS strings; lowercasing is ASCII lowercasing (`Char.toLower`),
  which agrees with `strings.ToLower` / `toLowerCase` on the ASCII keyword tables.
* Go maps are modelled as association-style traversals; where Go map iteration
  order is unspecified, a deterministic order is chosen and noted at the definition.
-/

/-- Lowercased character list: `strings.ToLower` (main.go:578) and
`.toLowerCase()` (part_000:164) restricted to ASCII input. -/
def lowerChars (cs : List Char) : List Char := cs.map Char.toLower

/-- Does the second list start with the first? Helper for substring search. -/
def startsWithChars : List Char → List Char → Bool
  | [], _ => true
  | _ :: _, [] => false
  | n :: ns, c :: cs => n == c && startsWithChars ns cs

/-- Does the list contain `needle` as a contiguous sublist? -/
def hasSubChars (needle : List Char) : List Char → Bool
  | [] => needle.isEmpty
  | c :: cs => startsWithChars needle (c :: cs) || hasSubChars needle cs

/-- Go `strings.Contains text kw` / JS regex-literal alternative match,
with `text` already lowercased. -/
def containsKw (text : List Char) (kw : String) : Bool := hasSubChars kw.toList text

/-- Does `text` contain any of the keywords? Embeds the `||`-chains of
`categorizeTransaction` (main.go:581-610) and the regex alternations of
part_000:167-197, all of which are plain literal alternatives. -/
def anyKw (text : List Char) (kws : List String) : Bool := kws.any (containsKw text)

/-- Keyword table of `categorizeTransaction` (main.go:581-584). -/
def foodKeywords : List String :=
  ["starbucks", "coffee", "chipotle", "pizza", "food", "doordash", "restaurant", "cafe"]

/-- Keyword table of `categorizeTransaction` (main.go:589-591). -/
def transportKeywords : List String := ["uber", "lyft", "gas", "metro", "parking"]

/-- Keyword table of `categorizeTransaction` (main.go:596-597). -/
def shoppingKeywords : List String := ["amazon", "target", "nike", "store"]

/-- Keyword table of `categorizeTransaction` (main.go:602-604). -/
def entertainmentKeywords : List String :=
  ["netflix", "spotify", "movie", "steam", "hulu", "disney"]

/-- Keyword table of `categorizeTransaction` (main.go:609-610). -/
def billsKeywords : List String := ["bill", "electric", "internet", "phone"]

/-- `categorizeTransaction` (main.go:577-615): first matching category wins,
fallback "Other". -/
def categorizeTransaction (description : String) : String :=
  let text := lowerChars description.toList
  if anyKw text foodKeywords then "Food & Dining"
  else if anyKw text transportKeywords then "Transportation"
  else if anyKw text shoppingKeywords then "Shopping"
  else if anyKw text entertainmentKeywords then "Entertainment"
  else if anyKw text billsKeywords then "Bills & Utilities"
  else "Other"

/-- The six spending categories of main.go's `categorizeTransaction`. -/
def sixCategories : List String :=
  ["Food & Dining", "Transportation", "Shopping", "Entertainment", "Bills & Utilities", "Other"]

/-- Keyword table of part_000's `categorizeTransaction` (part_000:167). -/
def tsFoodKeywords : List String :=
  ["food", "restaurant", "dining", "cafe", "coffee", "lunch", "dinner", "breakfast",
   "pizza", "burger", "sushi", "delivery", "uber eats", "doordash", "grubhub"]

/-- Keyword table of part_000's `categorizeTransaction` (part_000:172). -/
def tsTransportKeywords : List String :=
  ["uber", "lyft", "taxi", "transport", "gas", "fuel", "parking", "transit",
   "metro", "bus", "train", "ride"]

/-- Keyword table of part_000's `categorizeTransaction` (part_000:177). -/
def tsShoppingKeywords : List String :=
  ["amazon", "shopping", "store", "retail", "mall", "purchase", "buy",
   "walmart", "target", "ebay"]

/-- Keyword table of part_000's `categorizeTransaction` (part_000:182). -/
def tsEntertainmentKeywords : List String :=
  ["entertainment", "movie", "cinema", "netflix", "spotify", "hulu", "disney",
   "hbo", "music", "concert", "game", "theater", "steam", "playstation"]

/-- Keyword table of part_000's `categorizeTransaction` (part_000:187). -/
def tsBillsKeywords : List String :=
  ["bill", "utility", "electric", "water", "internet", "phone", "subscription",
   "insurance", "rent", "mortgage"]

/-- Keyword table of part_000's `categorizeTransaction` (part_000:192). -/
def tsHealthKeywords : List String :=
  ["health", "medical", "doctor", "pharmacy", "hospital", "dental", "clinic"]

/-- Keyword table of part_000's `categorizeTransaction` (part_000:197). -/
def tsTransferKeywords : List String := ["transfer", "saving", "deposit", "withdraw"]

/-- part_000's `categorizeTransaction` (part_000:163-202): matches on
description plus counterparty (empty string when absent), with two extra
categories, Healthcare and Transfers, after Bills & Utilities. -/
def categorizeTransactionTs (description counterparty : String) : String :=
  let text := lowerChars (description ++ " " ++ counterparty).toList
  if anyKw text tsFoodKeywords then "Food & Dining"
  else if anyKw text tsTransportKeywords then "Transportation"
  else if anyKw text tsShoppingKeywords then "Shopping"
  else if anyKw text tsEntertainmentKeywords then "Entertainment"
  else if anyKw text tsBillsKeywords then "Bills & Utilities"
  else if anyKw text tsHealthKeywords then "Healthcare"
  else if anyKw text tsTransferKeywords then "Transfers"
  else "Other"

/-- The eight categories part_000's `categorizeTransaction` can yield. -/
def tsCategories : List String :=
  ["Food & Dining", "Transportation", "Shopping", "Entertainment", "Bills & Utilities",
   "Healthcare", "Transfers", "Other"]

/-- Transaction record as consumed by main.go's analytics. Fields are read with
`tx["..."].(T)` type assertions; a missing or mistyped field yields the Go zero
value, which the model bakes into the field directly. `date` is `none` when the
"date" field is absent, not a string, or fails RFC3339 parsing (all three cases
make the transaction skip subscription detection, main.go:771-778); otherwise it
holds the parsed timestamp in whole seconds. -/
structure Tx where
  type : String
  amount : ℚ
  description : String
  recipient : String
  date : Option ℤ
  status : String
deriving DecidableEq

/-- Is the transaction outgoing (`case "send"`, main.go:495)? -/
def isSend (t : Tx) : Bool := t.type == "send"

/-- Is the transaction incoming (`case "receive"`, main.go:500)? -/
def isReceive (t : Tx) : Bool := t.type == "receive"

/-- `totalSpent` accumulated by the loop of `analyzeTransactions` (main.go:487-504). -/
def totalSpent (txs : List Tx) : ℚ :=
  (txs.map fun t => if isSend t then t.amount else 0).sum

/-- `totalReceived` accumulated by the loop of `analyzeTransactions` (main.go:487-504). -/
def totalReceived (txs : List Tx) : ℚ :=
  (txs.map fun t => if isReceive t then t.amount else 0).sum

/-- `spendCount` accumulated by the loop of `analyzeTransactions` (main.go:487-504). -/
def spendCount (txs : List Tx) : ℕ := txs.countP isSend

/-- `receiveCount` accumulated by the loop of `analyzeTransactions` (main.go:487-504). -/
def receiveCount (txs : List Tx) : ℕ := txs.countP isReceive

/-- `categorySpending[c]` accumulated by the loop of `analyzeTransactions`
(main.go:487-504): only "send" transactions contribute. -/
def categorySpending (c : String) (txs : List Tx) : ℚ :=
  (txs.map fun t =>
    if isSend t ∧ categorizeTransaction t.description = c then t.amount else 0).sum

/-- `categoryCount[c]` accumulated by the loop of `analyzeTransactions`
(main.go:487-504). -/
def categoryCount (c : String) (txs : List Tx) : ℕ :=
  txs.countP fun t => isSend t && (categorizeTransaction t.description == c)

/-- Per-category percentage computed in `analyzeTransactions` (main.go:517-521):
zero when `totalSpent` is not positive. -/
def percentageOf (txs : List Tx) (c : String) : ℚ :=
  if 0 < totalSpent txs then categorySpending c txs / totalSpent txs * 100 else 0

/-- `calculateVelocity` (main.go:619-630). -/
def calculateVelocity (transactionCount : ℕ) (days : ℕ) : String :=
  let txPerWeek : ℚ := (transactionCount : ℚ) / (days : ℚ) * 7
  if txPerWeek < 2 then "low"
  else if txPerWeek < 7 then "moderate"
  else "high"

/-- Transaction as typed in part_000's `BankingData` (part_000:13-22);
`counterparty` is optional there and `\x7b tx.counterparty || '' \x7d` turns a
missing value into the empty string, which the model bakes in. -/
structure TsTx where
  amount : ℚ
  type : String
  status : String
  description : String
  counterparty : String
deriving DecidableEq

/-- One element of the spending array built by `calculateSpending`
(part_000:147-155). -/
structure TsCategory where
  category : String
  amount : ℚ
  count : ℕ
  percentage : ℤ
deriving DecidableEq

/-- The filter of `calculateSpending` (part_000:124-126): outgoing means
type send or withdrawal AND status completed. -/
def tsOutgoing (txs : List TsTx) : List TsTx :=
  txs.filter fun t => (t.type == "send" || t.type == "withdrawal") && t.status == "completed"

/-- JS `Math.round`: round half toward positive infinity. -/
def jsRound (q : ℚ) : ℤ := ⌊q + 1/2⌋

/-- `Math.round(x * 100) / 100` (part_000:150). -/
def jsRound2 (q : ℚ) : ℚ := (jsRound (q * 100) : ℚ) / 100

/-- Category assigned to a TS transaction (part_000:137). -/
def tsCatOf (t : TsTx) : String := categorizeTransactionTs t.description t.counterparty

/-- `categoryMap[category].amount` after the forEach of part_000:136-144. -/
def tsCatAmount (out : List TsTx) (c : String) : ℚ :=
  ((out.filter fun t => tsCatOf t == c).map TsTx.amount).sum

/-- `categoryMap[category].count` after the forEach of part_000:136-144. -/
def tsCatCount (out : List TsTx) (c : String) : ℕ :=
  (out.filter fun t => tsCatOf t == c).length

/-- `total` accumulated by the forEach of part_000:136-144. -/
def tsTotal (out : List TsTx) : ℚ := (out.map TsTx.amount).sum

/-- Append a key if not yet present: JS object keys are kept in insertion
order, so `Object.entries(categoryMap)` lists categories in first-occurrence
order (part_000:147). -/
def insertKey (k : String) (ks : List String) : List String :=
  if k ∈ ks then ks else ks ++ [k]

/-- Category keys of `categoryMap` in first-occurrence order. -/
def keysOf (out : List TsTx) : List String :=
  out.foldl (fun ks t => insertKey (tsCatOf t) ks) []

/-- Stable insertion into a list sorted by descending amount; embeds the stable
JS `sort((a, b) => b.amount - a.amount)` of part_000:154. -/
def insertDescTs (x : TsCategory) : List TsCategory → List TsCategory
  | [] => [x]
  | y :: ys => if y.amount ≤ x.amount then x :: y :: ys else y :: insertDescTs x ys

/-- Stable sort by descending amount (part_000:154). -/
def sortDescTs : List TsCategory → List TsCategory
  | [] => []
  | x :: xs => insertDescTs x (sortDescTs xs)

/-- The mapped entries of part_000:147-153 (before sorting and truncation). -/
def spendingEntries (out : List TsTx) : List TsCategory :=
  (keysOf out).map fun c =>
    { category := c
      amount := jsRound2 (tsCatAmount out c)
      count := tsCatCount out c
      percentage := if 0 < tsTotal out then jsRound (tsCatAmount out c / tsTotal out * 100) else 0 }

/-- `calculateSpending` (part_000:122-158): filter to completed outgoing
transactions, return [] if none, else group by category, convert to entries
with percentages, sort by amount descending, keep the top 5. -/
def calculateSpending (txs : List TsTx) : List TsCategory :=
  let out := tsOutgoing txs
  if out = [] then [] else (sortDescTs (spendingEntries out)).take 5

/-- Go `math.Round`: round half away from zero (exact on rationals). -/
def goRound (q : ℚ) : ℤ := if 0 ≤ q then ⌊q + 1/2⌋ else -⌊-q + 1/2⌋

/-- `math.Round(x*100)/100` as used in main.go:932 and main.go:991. -/
def round2away (q : ℚ) : ℚ := (goRound (q * 100) : ℚ) / 100

/-- Round a nonnegative scaled value to an integer the way Go's `%.2f`
formatting rounds its decimal expansion: to nearest, ties to even. -/
def roundEven (q : ℚ) : ℤ :=
  if q - ⌊q⌋ < 1/2 then ⌊q⌋
  else if 1/2 < q - ⌊q⌋ then ⌊q⌋ + 1
  else if 2 ∣ ⌊q⌋ then ⌊q⌋ else ⌊q⌋ + 1

/-- The string `fmt.Sprintf("%.2f", amount)` (main.go:784), represented by its
sign flag and the absolute value in cents: two amounts render to the same
2-decimal string iff these pairs agree. -/
def fmtF2 (q : ℚ) : Bool × ℤ := (decide (q < 0), roundEven (|q| * 100))

/-- The filter applied per transaction in `analyzeForSubscriptions`
(main.go:753-781): outgoing, amount within [minAmount, maxAmount], and a
parseable date not before the cutoff. -/
def qualifies (cutoff : ℤ) (minA maxA : ℚ) (t : Tx) : Bool :=
  t.type == "send" && decide (minA ≤ t.amount) && decide (t.amount ≤ maxA) &&
    (match t.date with
     | none => false
     | some d => decide (cutoff ≤ d))

/-- Merchant label (main.go:764-769): description if nonempty, else recipient
if nonempty, else "Unknown". -/
def merchantOf (t : Tx) : String :=
  if t.description ≠ "" then t.description
  else if t.recipient ≠ "" then t.recipient
  else "Unknown"

/-- The composite `paymentKey` (main.go:747-750, 784-785): merchant string and
the amount rendered to two decimals. -/
def keyOf (t : Tx) : String × Bool × ℤ := (merchantOf t, fmtF2 t.amount)

/-- Dates collected into `paymentGroups[key]` (main.go:786). -/
def groupDates (txs : List Tx) (cutoff : ℤ) (minA maxA : ℚ) (k : String × Bool × ℤ) :
    List ℤ :=
  (txs.filter fun t => qualifies cutoff minA maxA t && keyOf t == k).filterMap Tx.date

/-- The distinct keys of `paymentGroups`. Go map iteration order is
unspecified; the model picks the `dedup` order, and every claim below uses the
result only through membership. -/
def groupKeys (txs : List Tx) (cutoff : ℤ) (minA maxA : ℚ) : List (String × Bool × ℤ) :=
  ((txs.filter (qualifies cutoff minA maxA)).map keyOf).dedup

/-- Insert into a chronologically sorted list of dates. -/
def insertSorted (x : ℤ) : List ℤ → List ℤ
  | [] => [x]
  | y :: ys => if x ≤ y then x :: y :: ys else y :: insertSorted x ys

/-- Chronological sort of a group's dates (`sort.Slice`, main.go:796-798). -/
def sortDates : List ℤ → List ℤ
  | [] => []
  | x :: xs => insertSorted x (sortDates xs)

/-- `int(dates[i].Sub(dates[i-1]).Hours() / 24)` (main.go:803): the elapsed
seconds divided by 86400, truncated toward zero (Go's float-to-int conversion). -/
def daysBetween (t1 t2 : ℤ) : ℤ := Int.tdiv (t2 - t1) 86400

/-- Day-count intervals between consecutive dates (main.go:801-805). -/
def intervalsOf : List ℤ → List ℤ
  | t1 :: t2 :: rest => daysBetween t1 t2 :: intervalsOf (t2 :: rest)
  | _ => []

/-- `isRegularPattern` (main.go:830-848): at least 70% of the intervals must be
within 20% of the mean interval. -/
def isRegularPattern (intervals : List ℤ) : Bool :=
  if intervals.length = 0 then false
  else
    let avg : ℚ := (intervals.sum : ℚ) / intervals.length
    let tolerance : ℚ := avg * (2/10)
    let withinTolerance := intervals.countP fun i => decide (|(i : ℚ) - avg| ≤ tolerance)
    decide ((7/10 : ℚ) ≤ (withinTolerance : ℚ) / intervals.length)

/-- `detectFrequency` (main.go:851-877). -/
def detectFrequency (intervals : List ℤ) : String :=
  if intervals.length = 0 then "unknown"
  else
    let avgDays : ℚ := (intervals.sum : ℚ) / intervals.length
    if 25 ≤ avgDays ∧ avgDays ≤ 35 then "monthly"
    else if 80 ≤ avgDays ∧ avgDays ≤ 100 then "quarterly"
    else if 170 ≤ avgDays ∧ avgDays ≤ 190 then "semi-annual"
    else if 350 ≤ avgDays ∧ avgDays ≤ 380 then "annual"
    else if 7 ≤ avgDays ∧ avgDays ≤ 14 then "biweekly"
    else if 1 ≤ avgDays ∧ avgDays ≤ 7 then "weekly"
    else "irregular"

/-- `calculateConfidence` (main.go:900-908). -/
def calculateConfidence (occurrences : ℕ) (intervals : List ℤ) : String :=
  if 4 ≤ occurrences ∧ isRegularPattern intervals = true then "high"
  else if 3 ≤ occurrences then "medium"
  else "low"

/-- The subscription map built at main.go:811-820. The `estimated_next` field
(calendar-arithmetic string, main.go:880-897) is used by no claim and omitted. -/
structure Subscription where
  merchant : String
  amount : ℚ
  frequency : String
  occurrences : ℕ
  lastOccurrence : ℤ
  totalPaid : ℚ
  confidence : String
deriving DecidableEq

/-- `strconv.ParseFloat(key.amount, 64)` (main.go:809): the rendered 2-decimal
string parsed back to a number. -/
def amountOfKey (k : String × Bool × ℤ) : ℚ :=
  (if k.2.1 then -1 else 1) * (k.2.2 : ℚ) / 100

/-- The subscription record built at main.go:811-820 for one payment group,
from its key and its chronologically sorted dates. -/
def mkSubscription (k : String × Bool × ℤ) (dates : List ℤ) : Subscription :=
  { merchant := k.1
    amount := amountOfKey k
    frequency := detectFrequency (intervalsOf dates)
    occurrences := dates.length
    lastOccurrence := dates.getLastD 0
    totalPaid := amountOfKey k * dates.length
    confidence := calculateConfidence dates.length (intervalsOf dates) }

/-- `analyzeForSubscriptions` (main.go:741-826): group the qualifying outgoing
transactions by (merchant, 2-decimal amount), keep groups with at least 2
occurrences whose sorted-date intervals form a regular pattern, and build a
subscription record for each. Go map iteration order is unspecified; the model
emits groups in `groupKeys` order, and every claim below uses the result only
through membership. -/
def analyzeForSubscriptions (txs : List Tx) (cutoff : ℤ) (minA maxA : ℚ) :
    List Subscription :=
  (groupKeys txs cutoff minA maxA).filterMap fun k =>
    let dates := sortDates (groupDates txs cutoff minA maxA k)
    if 2 ≤ dates.length ∧ isRegularPattern (intervalsOf dates) = true then
      some (mkSubscription k dates)
    else none

/-- The per-frequency scale factor of `calculateTotalMonthlyCost`
(main.go:917-931): the Go switch adds nothing for any other frequency string. -/
def freqScale (frequency : String) : ℚ :=
  if frequency == "monthly" then 1
  else if frequency == "quarterly" then 1/3
  else if frequency == "semi-annual" then 1/6
  else if frequency == "annual" then 1/12
  else if frequency == "biweekly" then 2167/1000
  else if frequency == "weekly" then 4333/1000
  else 0

/-- `totalMonthly` accumulated by the loop of `calculateTotalMonthlyCost`
(main.go:913-931). -/
def monthlyAccum : List Subscription → ℚ
  | [] => 0
  | s :: ss => s.amount * freqScale s.frequency + monthlyAccum ss

/-- `calculateTotalMonthlyCost` (main.go:912-933). -/
def calculateTotalMonthlyCost (subs : List Subscription) : ℚ :=
  round2away (monthlyAccum subs)

/-- Warnings abstracted from the formatted strings of `generateWarnings`
(main.go:937-995): one constructor per `fmt.Sprintf` template, carrying the
data interpolated into it. -/
inductive Warning
  | noneDetected
  | totalMonthly (amount : ℚ)
  | consolidation (category : String) (merchants : List String)
  | inactive (merchant : String) (lastDay : ℤ)
  | savingsTip (amount : ℚ)
deriving DecidableEq

/-- `knownPatterns` (main.go:949-955). The Go map is iterated in unspecified
order; the model fixes the textual order of the five buckets, which every
claim below treats as the chosen iteration order. -/
def knownPatterns : List (String × List String) :=
  [("streaming", ["netflix", "hulu", "disney", "prime", "spotify", "hbo", "apple tv",
                  "youtube premium"]),
   ("music", ["spotify", "apple music", "youtube music", "tidal", "pandora"]),
   ("cloud", ["dropbox", "google one", "icloud", "onedrive"]),
   ("fitness", ["peloton", "classpass", "apple fitness", "strava", "planet fitness"]),
   ("software", ["adobe", "github", "office"])]

/-- Does a merchant name match a bucket's keyword list (main.go:960-966)?
The inner `break` only stops further keywords, so each matching merchant is
recorded once per bucket. -/
def bucketMatches (keywords : List String) (merchant : String) : Bool :=
  keywords.any fun kw => containsKw (lowerChars merchant.toList) kw

/-- `merchantCategories[bucket]` after the loop of main.go:957-968: the
matching merchants in subscription order. -/
def bucketMerchants (subs : List Subscription) (keywords : List String) : List String :=
  (subs.filter fun s => bucketMatches keywords s.merchant).map Subscription.merchant

/-- `last_occurrence` is rendered as a "2006-01-02" date string (main.go:816)
and parsed back at the start of that day (main.go:982): as a timestamp this is
midnight of the occurrence's UTC day. -/
def lastDayOf (s : Subscription) : ℤ := Int.fdiv s.lastOccurrence 86400

/-- The inactivity test of main.go:983: fewer than 3 occurrences and the last
payment date more than 90 days before `now`. -/
def isInactive (now : ℤ) (s : Subscription) : Bool :=
  decide (s.occurrences < 3) &&
    decide ((90 : ℚ) < ((now : ℚ) - (lastDayOf s : ℚ) * 86400) / 86400)

/-- `generateWarnings` (main.go:937-995), with `now` the current time in
seconds. The warning strings are abstracted to `Warning` values. -/
def generateWarnings (now : ℤ) (subs : List Subscription) : List Warning :=
  if subs = [] then [Warning.noneDetected]
  else
    let totalMonthly := calculateTotalMonthlyCost subs
    Warning.totalMonthly totalMonthly ::
      (knownPatterns.filterMap fun p =>
        if 1 < (bucketMerchants subs p.2).length then
          some (Warning.consolidation p.1 (bucketMerchants subs p.2))
        else none) ++
      ((subs.filter (isInactive now)).map fun s =>
        Warning.inactive s.merchant (lastDayOf s)) ++
      (if 50 < totalMonthly then [Warning.savingsTip (round2away (totalMonthly * (1/10)))]
       else [])

/-- The mean interval used by `isRegularPattern` and `detectFrequency`
(main.go:838, main.go:859). -/
def meanOf (l : List ℤ) : ℚ := (l.sum : ℚ) / l.length


/-- A concrete part_000 transaction used in the status-field analysis. -/
def pendingMisc : TsTx :=
  { amount := 10, type := "send", status := "pending", description := "misc", counterparty := "" }

/-- The same transaction with status "completed". -/
def completedMisc : TsTx :=
  { amount := 10, type := "send", status := "completed", description := "misc", counterparty := "" }

/-- A concrete main.go transaction used in the status-field analysis. -/
def pendingMiscGo : Tx :=
  { type := "send", amount := 10, description := "misc", recipient := "",
    date := none, status := "pending" }

/-- The same transaction with status "completed". -/
def completedMiscGo : Tx :=
  { type := "send", amount := 10, description := "misc", recipient := "",
    date := none, status := "completed" }

/-- Six outgoing transactions hitting all six spending categories (used to
exercise the percentage partition when more than five categories exist). -/
def sixWayTxs : List Tx :=
  [⟨"send", 1, "pizza", "", none, "completed"⟩,
   ⟨"send", 2, "uber", "", none, "completed"⟩,
   ⟨"send", 3, "amazon", "", none, "completed"⟩,
   ⟨"send", 4, "netflix", "", none, "completed"⟩,
   ⟨"send", 5, "electric", "", none, "completed"⟩,
   ⟨"send", 6, "misc", "", none, "completed"⟩]

/-- Four payments of 50 to "Gym Plus" at days 0, 10, 70, 75: the day-count
intervals are [10, 60, 5], the spec's irregular example. -/
def irregularTxs : List Tx :=
  [⟨"send", 50, "Gym Plus", "", some 0, "completed"⟩,
   ⟨"send", 50, "Gym Plus", "", some 864000, "completed"⟩,
   ⟨"send", 50, "Gym Plus", "", some 6048000, "completed"⟩,
   ⟨"send", 50, "Gym Plus", "", some 6480000, "completed"⟩]

/-- Four payments of 16 to "Netflix" at days 0, 30, 60, 90: a perfectly
regular monthly pattern. -/
def regularTxs : List Tx :=
  [⟨"send", 16, "Netflix", "", some 0, "completed"⟩,
   ⟨"send", 16, "Netflix", "", some 2592000, "completed"⟩,
   ⟨"send", 16, "Netflix", "", some 5184000, "completed"⟩,
   ⟨"send", 16, "Netflix", "", some 7776000, "completed"⟩]

/-- A qualifying payment of 9.99 to "Spotify". -/
def spotifyA : Tx := ⟨"send", 999/100, "Spotify", "", some 0, "completed"⟩

/-- A qualifying payment of 9.994 to "Spotify" (renders to "9.99" as well). -/
def spotifyB : Tx := ⟨"send", 9994/1000, "Spotify", "", some 86400, "completed"⟩

/-- A detected monthly Netflix subscription (4 occurrences, recent). -/
def streamSub1 : Subscription := ⟨"Netflix", 40, "monthly", 4, 8553600, 160, "high"⟩

/-- A detected monthly Hulu subscription (2 occurrences, last paid at day 0). -/
def streamSub2 : Subscription := ⟨"Hulu Plus", 30, "monthly", 2, 0, 60, "low"⟩

/-- Two transaction lists that agree everywhere except possibly in the
`status` field. -/
def SameExceptStatus (xs ys : List Tx) : Prop :=
  List.Forall₂
    (fun a b => a.type = b.type ∧ a.amount = b.amount ∧ a.description = b.description ∧
      a.recipient = b.recipient ∧ a.date = b.date) xs ys

/-! Helper lemmas -/

/-- Truncating division agrees with Euclidean division on nonnegative gaps. -/
lemma tdiv_nonneg_86400 (a k : ℤ) (hk : 1 ≤ k) (h1 : (k - 1) * 86400 ≤ a)
    (h2 : a < k * 86400) : Int.tdiv a 86400 = k - 1 := by
  have ha : 0 ≤ a := by nlinarith
  obtain ⟨m, rfl⟩ := Int.eq_ofNat_of_zero_le ha
  rw [show Int.tdiv (m : ℤ) (86400 : ℤ) = ((m / 86400 : ℕ) : ℤ) from rfl, Int.ofNat_ediv]
  omega

/-- The loop accumulator of `calculateTotalMonthlyCost` is the sum of the
scaled amounts. -/
lemma monthlyAccum_eq_sum (subs : List Subscription) :
    monthlyAccum subs = (subs.map fun s => s.amount * freqScale s.frequency).sum := by
  induction subs with
  | nil => rfl
  | cons s ss ih => simp [monthlyAccum, ih]

lemma detectFrequency_pos (l : List ℤ) (hl : l ≠ []) :
    detectFrequency l =
      (if 25 ≤ meanOf l ∧ meanOf l ≤ 35 then "monthly"
       else if 80 ≤ meanOf l ∧ meanOf l ≤ 100 then "quarterly"
       else if 170 ≤ meanOf l ∧ meanOf l ≤ 190 then "semi-annual"
       else if 350 ≤ meanOf l ∧ meanOf l ≤ 380 then "annual"
       else if 7 ≤ meanOf l ∧ meanOf l ≤ 14 then "biweekly"
       else if 1 ≤ meanOf l ∧ meanOf l ≤ 7 then "weekly"
       else "irregular") := by
  have h : l.length ≠ 0 := by simpa using hl
  simp only [detectFrequency, meanOf, h, if_false]


lemma detectFrequency_cases (l : List ℤ) (hl : l ≠ []) :
    (detectFrequency l = "monthly" ↔ 25 ≤ meanOf l ∧ meanOf l ≤ 35) ∧
    (detectFrequency l = "quarterly" ↔ 80 ≤ meanOf l ∧ meanOf l ≤ 100) ∧
    (detectFrequency l = "semi-annual" ↔ 170 ≤ meanOf l ∧ meanOf l ≤ 190) ∧
    (detectFrequency l = "annual" ↔ 350 ≤ meanOf l ∧ meanOf l ≤ 380) ∧
    (detectFrequency l = "biweekly" ↔ 7 ≤ meanOf l ∧ meanOf l ≤ 14) ∧
    (detectFrequency l = "weekly" ↔ 1 ≤ meanOf l ∧ meanOf l < 7) := by
  rw [detectFrequency_pos l hl]
  set a := meanOf l with ha
  by_cases h1 : 25 ≤ a ∧ a ≤ 35
  · rw [if_pos h1]
    refine ⟨by simpa using h1, ?_, ?_, ?_, ?_, ?_⟩ <;> simp <;> rintro hx <;>
      linarith [h1.1, h1.2]
  · rw [if_neg h1]
    by_cases h2 : 80 ≤ a ∧ a ≤ 100
    · rw [if_pos h2]
      refine ⟨by simpa using h1, by simpa using h2, ?_, ?_, ?_, ?_⟩ <;> simp <;> rintro hx <;>
        linarith [h2.1, h2.2]
    · rw [if_neg h2]
      by_cases h3 : 170 ≤ a ∧ a ≤ 190
      · rw [if_pos h3]
        refine ⟨by simpa using h1, by simpa using h2, by simpa using h3, ?_, ?_, ?_⟩ <;>
          simp <;> rintro hx <;>
          linarith [h3.1, h3.2]
      · rw [if_neg h3]
        by_cases h4 : 350 ≤ a ∧ a ≤ 380
        · rw [if_pos h4]
          refine ⟨by simpa using h1, by simpa using h2, by simpa using h3,
            by simpa using h4, ?_, ?_⟩ <;> simp <;> rintro hx <;>
            linarith [h4.1, h4.2]
        · rw [if_neg h4]
          by_cases h5 : 7 ≤ a ∧ a ≤ 14
          · rw [if_pos h5]
            refine ⟨by simpa using h1, by simpa using h2, by simpa using h3,
              by simpa using h4, by simpa using h5, ?_⟩
            simp
            rintro hx
            linarith [h5.1]
          · rw [if_neg h5]
            by_cases h6 : 1 ≤ a ∧ a ≤ 7
            · rw [if_pos h6]
              have hlt : a < 7 := by
                rcases lt_or_le a 7 with hc | hc
                · exact hc
                · exact absurd ⟨hc, by linarith [h6.2]⟩ h5
              refine ⟨by simpa using h1, by simpa using h2, by simpa using h3,
                by simpa using h4, by simpa using h5, by simp [h6.1, hlt]⟩
            · rw [if_neg h6]
              have hw : ¬ (1 ≤ a ∧ a < 7) := fun hc => h6 ⟨hc.1, le_of_lt hc.2⟩
              exact ⟨by simpa using h1, by simpa using h2, by simpa using h3,
                by simpa using h4, by simpa using h5, by simpa using hw⟩

/-! Claim theorems -/

/-- C10: each day-count interval between consecutive occurrences truncates the
elapsed time divided by 24 hours toward zero, so a gap that is at least
(k−1)×24h but even slightly less than k×24h counts as k−1 days, not k; in
particular a gap of 29 days 23 hours (2588400 seconds) contributes 29. -/
theorem interval_truncates_toward_zero_C10 :
    (∀ t1 t2 k : ℤ, 1 ≤ k → (k - 1) * 86400 ≤ t2 - t1 → t2 - t1 < k * 86400 →
      daysBetween t1 t2 = k - 1) ∧
    (∀ (t1 t2 : ℤ) (rest : List ℤ),
      intervalsOf (t1 :: t2 :: rest) = daysBetween t1 t2 :: intervalsOf (t2 :: rest)) ∧
    daysBetween 0 ((29 * 24 + 23) * 3600) = 29 := by
  refine ⟨fun t1 t2 k hk h1 h2 => tdiv_nonneg_86400 (t2 - t1) k hk h1 h2,
    fun t1 t2 rest => rfl, by decide⟩

/-- Witness for C10: the gap of 29 days 23 hours, which is less than 30 full
days, yields interval 30 − 1 = 29. -/
theorem interval_truncates_toward_zero_C10_witness :
    daysBetween 0 2588400 = 30 - 1 :=
  interval_truncates_toward_zero_C10.1 0 2588400 30 (by norm_num) (by norm_num) (by norm_num)

/-- C5: the total monthly cost is the 2-decimal rounding of the sum over the
subscriptions of amount times the frequency scale (monthly ×1, quarterly ÷3,
semi-annual ÷6, annual ÷12, biweekly ×2.167, weekly ×4.333 — the literal
constants, which differ from the exact ratios 26/12 and 52/12); a single
annual subscription of 299.00 yields exactly 24.92. -/
theorem total_monthly_cost_C5 :
    (∀ subs : List Subscription,
      calculateTotalMonthlyCost subs =
        round2away ((subs.map fun s => s.amount * freqScale s.frequency).sum)) ∧
    freqScale "monthly" = 1 ∧ freqScale "quarterly" = 1/3 ∧
    freqScale "semi-annual" = 1/6 ∧ freqScale "annual" = 1/12 ∧
    freqScale "biweekly" = 2167/1000 ∧ freqScale "weekly" = 4333/1000 ∧
    (2167/1000 : ℚ) ≠ 26/12 ∧ (4333/1000 : ℚ) ≠ 52/12 ∧
    calculateTotalMonthlyCost
        [{ merchant := "Annual Plan", amount := 299, frequency := "annual",
           occurrences := 2, lastOccurrence := 0, totalPaid := 598,
           confidence := "low" }]
      = 2492/100 := by
  have hann : freqScale "annual" = 1/12 := rfl
  refine ⟨fun subs => by rw [calculateTotalMonthlyCost, monthlyAccum_eq_sum],
    rfl, rfl, rfl, rfl, rfl, rfl, by norm_num, by norm_num, ?_⟩
  norm_num [calculateTotalMonthlyCost, monthlyAccum, hann, round2away, goRound]

/-- C2: on a nonempty interval list, the frequency is classified from the mean
interval by the inclusive ranges 25–35 monthly, 80–100 quarterly, 170–190
semi-annual, 350–380 annual, 7–14 biweekly, 1–7 weekly (checked in that order,
so weekly effectively gets 1 ≤ mean < 7); a mean of exactly 35 (intervals
[30, 40]) is "monthly" and a mean of exactly 7 is "biweekly". -/
theorem frequency_ranges_C2 :
    (∀ l : List ℤ, l ≠ [] →
      (detectFrequency l = "monthly" ↔ 25 ≤ meanOf l ∧ meanOf l ≤ 35) ∧
      (detectFrequency l = "quarterly" ↔ 80 ≤ meanOf l ∧ meanOf l ≤ 100) ∧
      (detectFrequency l = "semi-annual" ↔ 170 ≤ meanOf l ∧ meanOf l ≤ 190) ∧
      (detectFrequency l = "annual" ↔ 350 ≤ meanOf l ∧ meanOf l ≤ 380) ∧
      (detectFrequency l = "biweekly" ↔ 7 ≤ meanOf l ∧ meanOf l ≤ 14) ∧
      (detectFrequency l = "weekly" ↔ 1 ≤ meanOf l ∧ meanOf l < 7)) ∧
    meanOf [30, 40] = 35 ∧ detectFrequency [30, 40] = "monthly" ∧
    meanOf [7] = 7 ∧ detectFrequency [7] = "biweekly" := by
  refine ⟨detectFrequency_cases, by norm_num [meanOf], ?_, by norm_num [meanOf], ?_⟩
  · norm_num [detectFrequency, meanOf]
  · norm_num [detectFrequency, meanOf]

/-- Witness for C2: the boundary means 35 (from [30, 40]) and 7 (from [7])
instantiate the classification ranges. -/
theorem frequency_ranges_C2_witness :
    (detectFrequency [30, 40] = "monthly" ↔ 25 ≤ meanOf [30, 40] ∧ meanOf [30, 40] ≤ 35) ∧
    (detectFrequency [7] = "biweekly" ↔ 7 ≤ meanOf [7] ∧ meanOf [7] ≤ 14) :=
  ⟨(frequency_ranges_C2.1 [30, 40] (by decide)).1,
   (frequency_ranges_C2.1 [7] (by decide)).2.2.2.2.1⟩

/-- Every result of main.go's categorizer is one of the six categories. -/
lemma categorize_mem_six (s : String) : categorizeTransaction s ∈ sixCategories := by
  unfold categorizeTransaction
  dsimp only
  split_ifs <;> simp [sixCategories]

/-- Every result of part_000's categorizer is one of its eight categories. -/
lemma categorizeTs_mem (d c : String) : categorizeTransactionTs d c ∈ tsCategories := by
  unfold categorizeTransactionTs
  dsimp only
  split_ifs <;> simp [tsCategories]

/-- Counterexample to C6: the part_000 copy of the categorizer can return
"Healthcare", which is not in the claimed six-category enum. -/
theorem categorizer_enum_counterexample_C6 :
    categorizeTransactionTs "pharmacy" "" = "Healthcare" ∧
    "Healthcare" ∉ sixCategories := by
  refine ⟨by decide, by decide⟩

/-- C6 (amended): main.go's categorizer always yields one of the six fixed
categories, via case-insensitive keyword matching in the priority order Food &
Dining, Transportation, Shopping, Entertainment, Bills & Utilities with first
match winning and fallback "Other"; the part_000 copy instead draws from an
eight-category set that additionally contains Healthcare and Transfers. -/
theorem categorizer_priority_C6 :
    (∀ s, categorizeTransaction s ∈ sixCategories) ∧
    (∀ s, anyKw (lowerChars s.toList) foodKeywords = true →
      categorizeTransaction s = "Food & Dining") ∧
    (∀ s, anyKw (lowerChars s.toList) foodKeywords = false →
      anyKw (lowerChars s.toList) transportKeywords = true →
      categorizeTransaction s = "Transportation") ∧
    (∀ s, anyKw (lowerChars s.toList) foodKeywords = false →
      anyKw (lowerChars s.toList) transportKeywords = false →
      anyKw (lowerChars s.toList) shoppingKeywords = true →
      categorizeTransaction s = "Shopping") ∧
    (∀ s, anyKw (lowerChars s.toList) foodKeywords = false →
      anyKw (lowerChars s.toList) transportKeywords = false →
      anyKw (lowerChars s.toList) shoppingKeywords = false →
      anyKw (lowerChars s.toList) entertainmentKeywords = true →
      categorizeTransaction s = "Entertainment") ∧
    (∀ s, anyKw (lowerChars s.toList) foodKeywords = false →
      anyKw (lowerChars s.toList) transportKeywords = false →
      anyKw (lowerChars s.toList) shoppingKeywords = false →
      anyKw (lowerChars s.toList) entertainmentKeywords = false →
      anyKw (lowerChars s.toList) billsKeywords = true →
      categorizeTransaction s = "Bills & Utilities") ∧
    (∀ s, anyKw (lowerChars s.toList) foodKeywords = false →
      anyKw (lowerChars s.toList) transportKeywords = false →
      anyKw (lowerChars s.toList) shoppingKeywords = false →
      anyKw (lowerChars s.toList) entertainmentKeywords = false →
      anyKw (lowerChars s.toList) billsKeywords = false →
      categorizeTransaction s = "Other") ∧
    (∀ d c, categorizeTransactionTs d c ∈ tsCategories) := by
  refine ⟨categorize_mem_six,
    fun s h1 => by
      have k1 : anyKw (lowerChars s.data) foodKeywords = true := h1
      simp [categorizeTransaction, k1],
    fun s h1 h2 => by
      have k1 : anyKw (lowerChars s.data) foodKeywords = false := h1
      have k2 : anyKw (lowerChars s.data) transportKeywords = true := h2
      simp [categorizeTransaction, k1, k2],
    fun s h1 h2 h3 => by
      have k1 : anyKw (lowerChars s.data) foodKeywords = false := h1
      have k2 : anyKw (lowerChars s.data) transportKeywords = false := h2
      have k3 : anyKw (lowerChars s.data) shoppingKeywords = true := h3
      simp [categorizeTransaction, k1, k2, k3],
    fun s h1 h2 h3 h4 => by
      have k1 : anyKw (lowerChars s.data) foodKeywords = false := h1
      have k2 : anyKw (lowerChars s.data) transportKeywords = false := h2
      have k3 : anyKw (lowerChars s.data) shoppingKeywords = false := h3
      have k4 : anyKw (lowerChars s.data) entertainmentKeywords = true := h4
      simp [categorizeTransaction, k1, k2, k3, k4],
    fun s h1 h2 h3 h4 h5 => by
      have k1 : anyKw (lowerChars s.data) foodKeywords = false := h1
      have k2 : anyKw (lowerChars s.data) transportKeywords = false := h2
      have k3 : anyKw (lowerChars s.data) shoppingKeywords = false := h3
      have k4 : anyKw (lowerChars s.data) entertainmentKeywords = false := h4
      have k5 : anyKw (lowerChars s.data) billsKeywords = true := h5
      simp [categorizeTransaction, k1, k2, k3, k4, k5],
    fun s h1 h2 h3 h4 h5 => by
      have k1 : anyKw (lowerChars s.data) foodKeywords = false := h1
      have k2 : anyKw (lowerChars s.data) transportKeywords = false := h2
      have k3 : anyKw (lowerChars s.data) shoppingKeywords = false := h3
      have k4 : anyKw (lowerChars s.data) entertainmentKeywords = false := h4
      have k5 : anyKw (lowerChars s.data) billsKeywords = false := h5
      simp [categorizeTransaction, k1, k2, k3, k4, k5],
    categorizeTs_mem⟩

/-- Witness for C6: "Uber Trip" matches no food keyword but matches "uber",
so the priority chain yields Transportation. -/
theorem categorizer_priority_C6_witness :
    categorizeTransaction "Uber Trip" = "Transportation" :=
  categorizer_priority_C6.2.2.1 "Uber Trip" (by decide) (by decide)

lemma sum_map_congr {R : Tx → Tx → Prop} (f : Tx → ℚ)
    (hf : ∀ a b, R a b → f a = f b) :
    ∀ {xs ys : List Tx}, List.Forall₂ R xs ys → (xs.map f).sum = (ys.map f).sum := by
  intro xs ys h
  induction h with
  | nil => rfl
  | cons hab _ ih => simp [hf _ _ hab, ih]

lemma countP_congr {R : Tx → Tx → Prop} (p : Tx → Bool)
    (hp : ∀ a b, R a b → p a = p b) :
    ∀ {xs ys : List Tx}, List.Forall₂ R xs ys → xs.countP p = ys.countP p := by
  intro xs ys h
  induction h with
  | nil => rfl
  | cons hab _ ih => simp [List.countP_cons, hp _ _ hab, ih]

/-- Counterexample to C7: part_000's `calculateSpending` does filter on the
status field — the same single outgoing transaction is excluded when its
status is "pending" and included when it is "completed". -/
theorem status_filter_counterexample_C7 :
    calculateSpending [pendingMisc] = [] ∧
    calculateSpending [completedMisc] =
      [{ category := "Other", amount := 10, count := 1, percentage := 100 }] := by
  constructor
  · decide
  · have hout : tsOutgoing [completedMisc] = [completedMisc] := by decide
    have hcat : tsCatOf completedMisc = "Other" := by decide
    have hamt : completedMisc.amount = 10 := rfl
    norm_num [calculateSpending, hout, spendingEntries, keysOf, List.foldl, insertKey,
      hcat, hamt, tsCatAmount, tsCatCount, tsTotal, List.filter_cons, List.filter_nil,
      jsRound2, jsRound, sortDescTs, insertDescTs, List.take]

/-- C7 (amended): main.go's `analyzeTransactions` never reads `status`, so all
its spending aggregates (totals, counts, per-category sums and counts) are
unchanged between inputs that differ only in status fields; part_000's
`calculateSpending`, however, keeps only transactions with status
"completed", so a transaction with any other status does not participate
there at all. -/
theorem status_informational_C7 :
    (∀ xs ys : List Tx, SameExceptStatus xs ys →
      totalSpent xs = totalSpent ys ∧ totalReceived xs = totalReceived ys ∧
      spendCount xs = spendCount ys ∧ receiveCount xs = receiveCount ys ∧
      (∀ c, categorySpending c xs = categorySpending c ys) ∧
      (∀ c, categoryCount c xs = categoryCount c ys)) ∧
    (∀ (t : TsTx) (ts : List TsTx), t.status ≠ "completed" →
      calculateSpending (t :: ts) = calculateSpending ts) := by
  constructor
  · intro xs ys h
    refine ⟨?_, ?_, ?_, ?_, fun c => ?_, fun c => ?_⟩
    · exact sum_map_congr _ (fun a b hr => by
        obtain ⟨ht, ha, _, _, _⟩ := hr; simp only [isSend, ht, ha]) h
    · exact sum_map_congr _ (fun a b hr => by
        obtain ⟨ht, ha, _, _, _⟩ := hr; simp only [isReceive, ht, ha]) h
    · exact countP_congr _ (fun a b hr => by
        obtain ⟨ht, _, _, _, _⟩ := hr; simp only [isSend, ht]) h
    · exact countP_congr _ (fun a b hr => by
        obtain ⟨ht, _, _, _, _⟩ := hr; simp only [isReceive, ht]) h
    · exact sum_map_congr _ (fun a b hr => by
        obtain ⟨ht, ha, hd, _, _⟩ := hr; simp only [isSend, ht, ha, hd]) h
    · exact countP_congr _ (fun a b hr => by
        obtain ⟨ht, _, hd, _, _⟩ := hr; simp only [isSend, ht, hd]) h
  · intro t ts hst
    have hfil : tsOutgoing (t :: ts) = tsOutgoing ts := by
      have : ¬ (((t.type == "send" || t.type == "withdrawal") &&
          t.status == "completed") = true) := by
        simp [hst]
      simp [tsOutgoing, List.filter_cons, this]
    simp only [calculateSpending, hfil]

/-- Witness for C7: a pending and a completed copy of the same send give equal
main.go aggregates, and a pending transaction drops out of part_000's
spending outright. -/
theorem status_informational_C7_witness :
    totalSpent [pendingMiscGo] = totalSpent [completedMiscGo] ∧
    calculateSpending [pendingMisc] = calculateSpending ([] : List TsTx) :=
  ⟨(status_informational_C7.1 [pendingMiscGo] [completedMiscGo]
      (List.Forall₂.cons ⟨rfl, rfl, rfl, rfl, rfl⟩ List.Forall₂.nil)).1,
   status_informational_C7.2 pendingMisc [] (by decide)⟩

lemma sum_map_add (L : List String) (f g : String → ℚ) :
    (L.map fun c => f c + g c).sum = (L.map f).sum + (L.map g).sum := by
  induction L with
  | nil => simp
  | cons c cs ih => simp [ih]; ring

lemma sum_map_mul_const (L : List String) (f : String → ℚ) (k : ℚ) :
    (L.map fun c => f c * k).sum = (L.map f).sum * k := by
  induction L with
  | nil => simp
  | cons c cs ih => simp [ih]; ring

lemma categorySpending_cons (c : String) (t : Tx) (ts : List Tx) :
    categorySpending c (t :: ts) =
      (if isSend t ∧ categorizeTransaction t.description = c then t.amount else 0) +
        categorySpending c ts := by
  simp [categorySpending]

/-- A single transaction's contribution lands in exactly one of the six
category buckets. -/
lemma contrib_sum (t : Tx) :
    (sixCategories.map fun c =>
      if isSend t ∧ categorizeTransaction t.description = c then t.amount else 0).sum
      = if isSend t then t.amount else 0 := by
  by_cases hs : isSend t = true
  · have h := categorize_mem_six t.description
    simp only [sixCategories, List.mem_cons, List.not_mem_nil, or_false] at h
    rcases h with h | h | h | h | h | h <;> simp [sixCategories, hs, h]
  · simp [sixCategories, hs]

/-- The per-category spending sums partition the total spent. -/
lemma sum_categorySpending (txs : List Tx) :
    (sixCategories.map fun c => categorySpending c txs).sum = totalSpent txs := by
  induction txs with
  | nil => simp [categorySpending, totalSpent, sixCategories]
  | cons t ts ih =>
    have hstep : (sixCategories.map fun c => categorySpending c (t :: ts)).sum =
        (sixCategories.map fun c =>
          if isSend t ∧ categorizeTransaction t.description = c then t.amount else 0).sum +
          (sixCategories.map fun c => categorySpending c ts).sum := by
      simp only [categorySpending_cons]
      exact sum_map_add _ _ _
    rw [hstep, ih, contrib_sum]
    simp [totalSpent]

/-- C9: whenever the total spent is positive, the per-category percentages
(aggregate amount over total spent, times 100) computed across the six
categories sum to exactly 100. -/
theorem category_percentages_C9 :
    ∀ txs : List Tx, 0 < totalSpent txs →
      (sixCategories.map (percentageOf txs)).sum = 100 := by
  intro txs h
  have hT : totalSpent txs ≠ 0 := ne_of_gt h
  have hmap : sixCategories.map (percentageOf txs) =
      sixCategories.map fun c => categorySpending c txs * (100 / totalSpent txs) := by
    refine List.map_congr_left fun c _ => ?_
    rw [percentageOf, if_pos h]
    field_simp
  rw [hmap, sum_map_mul_const, sum_categorySpending]
  field_simp

/-- Witness for C9: six categories all carry positive spend (so the output
keeps only the top 5), and the computed percentages still sum to 100. -/
theorem category_percentages_C9_witness :
    0 < totalSpent sixWayTxs ∧ (sixCategories.map (percentageOf sixWayTxs)).sum = 100 := by
  have hpos : 0 < totalSpent sixWayTxs := by
    norm_num [totalSpent, sixWayTxs, isSend]
  exact ⟨hpos, category_percentages_C9 sixWayTxs hpos⟩

/-- Membership characterization of the subscription detector's result: the
emitted records are exactly the records of keyed groups with at least two
occurrences whose sorted-date intervals pass the regularity test. -/
lemma mem_analyzeForSubscriptions (txs : List Tx) (cutoff : ℤ) (minA maxA : ℚ)
    (sub : Subscription) :
    sub ∈ analyzeForSubscriptions txs cutoff minA maxA ↔
      ∃ k ∈ groupKeys txs cutoff minA maxA,
        (2 ≤ (sortDates (groupDates txs cutoff minA maxA k)).length ∧
          isRegularPattern (intervalsOf (sortDates (groupDates txs cutoff minA maxA k))) =
            true) ∧
        sub = mkSubscription k (sortDates (groupDates txs cutoff minA maxA k)) := by
  unfold analyzeForSubscriptions
  rw [List.mem_filterMap]
  constructor
  · rintro ⟨k, hk, hfk⟩
    dsimp only at hfk
    by_cases hP : 2 ≤ (sortDates (groupDates txs cutoff minA maxA k)).length ∧
        isRegularPattern (intervalsOf (sortDates (groupDates txs cutoff minA maxA k))) = true
    · rw [if_pos hP] at hfk
      exact ⟨k, hk, hP, (Option.some_inj.mp hfk).symm⟩
    · rw [if_neg hP] at hfk
      cases hfk
  · rintro ⟨k, hk, hP, rfl⟩
    refine ⟨k, hk, ?_⟩
    dsimp only
    rw [if_pos hP]

/-! Evaluation lemmas for the two concrete subscription scenarios. -/

lemma irr_keys : groupKeys irregularTxs 0 1 1000 = [("Gym Plus", false, 5000)] := by
  have hm : ∀ d : Option ℤ, merchantOf ⟨"send", 50, "Gym Plus", "", d, "completed"⟩ =
      "Gym Plus" := fun d => by simp [merchantOf]
  norm_num [groupKeys, irregularTxs, qualifies, List.filter_cons, keyOf, hm,
    fmtF2, roundEven, List.dedup_cons_of_mem, List.dedup_cons_of_not_mem]

lemma irr_dates :
    groupDates irregularTxs 0 1 1000 ("Gym Plus", false, 5000) =
      [0, 864000, 6048000, 6480000] := by
  have hm : ∀ d : Option ℤ, merchantOf ⟨"send", 50, "Gym Plus", "", d, "completed"⟩ =
      "Gym Plus" := fun d => by simp [merchantOf]
  norm_num [groupDates, irregularTxs, qualifies, List.filter_cons, keyOf, hm,
    fmtF2, roundEven, List.filterMap]

lemma irr_sorted :
    sortDates [0, 864000, 6048000, 6480000] = [0, 864000, 6048000, 6480000] := by decide

lemma irr_intervals : intervalsOf [0, 864000, 6048000, 6480000] = [10, 60, 5] := by decide

lemma irr_notRegular : isRegularPattern [10, 60, 5] = false := by
  norm_num [isRegularPattern, List.countP_cons]

lemma irr_empty : analyzeForSubscriptions irregularTxs 0 1 1000 = [] := by
  unfold analyzeForSubscriptions
  rw [irr_keys]
  simp [List.filterMap, irr_dates, irr_sorted, irr_intervals, irr_notRegular]

lemma reg_keys : groupKeys regularTxs 0 1 1000 = [("Netflix", false, 1600)] := by
  have hm : ∀ d : Option ℤ, merchantOf ⟨"send", 16, "Netflix", "", d, "completed"⟩ =
      "Netflix" := fun d => by simp [merchantOf]
  norm_num [groupKeys, regularTxs, qualifies, List.filter_cons, keyOf, hm,
    fmtF2, roundEven, List.dedup_cons_of_mem, List.dedup_cons_of_not_mem]

lemma reg_dates :
    groupDates regularTxs 0 1 1000 ("Netflix", false, 1600) =
      [0, 2592000, 5184000, 7776000] := by
  have hm : ∀ d : Option ℤ, merchantOf ⟨"send", 16, "Netflix", "", d, "completed"⟩ =
      "Netflix" := fun d => by simp [merchantOf]
  norm_num [groupDates, regularTxs, qualifies, List.filter_cons, keyOf, hm,
    fmtF2, roundEven, List.filterMap]

lemma reg_sorted :
    sortDates [0, 2592000, 5184000, 7776000] = [0, 2592000, 5184000, 7776000] := by decide

lemma reg_intervals : intervalsOf [0, 2592000, 5184000, 7776000] = [30, 30, 30] := by decide

lemma reg_isRegular : isRegularPattern [30, 30, 30] = true := by
  norm_num [isRegularPattern, List.countP_cons]

lemma reg_result :
    analyzeForSubscriptions regularTxs 0 1 1000 =
      [mkSubscription ("Netflix", false, 1600) [0, 2592000, 5184000, 7776000]] := by
  unfold analyzeForSubscriptions
  rw [reg_keys]
  simp [List.filterMap, reg_dates, reg_sorted, reg_intervals, reg_isRegular]

/-- The regularity test in the 70%-of-count formulation. -/
lemma isRegularPattern_iff (l : List ℤ) (hl : l ≠ []) :
    isRegularPattern l = true ↔
      (7/10 : ℚ) * l.length ≤
        l.countP fun i => decide (|(i : ℚ) - meanOf l| ≤ (2/10) * meanOf l) := by
  have hn0 : l.length ≠ 0 := by simpa using hl
  have hn : (0 : ℚ) < l.length := by exact_mod_cast Nat.pos_of_ne_zero hn0
  have hcount : (l.countP fun i => decide (|(i : ℚ) - meanOf l| ≤ (2/10) * meanOf l)) =
      l.countP fun i => decide (|(i : ℚ) - meanOf l| ≤ meanOf l * (2/10)) := by
    apply List.countP_congr
    intro a _
    simp [mul_comm]
  rw [hcount]
  simp only [isRegularPattern, meanOf, if_neg hn0, decide_eq_true_eq]
  rw [le_div_iff₀ hn]

/-- C1: a nonempty interval list passes the regularity test iff at least 70%
of the intervals lie within 0.2 × mean of the mean interval; every emitted
subscription stems from a group whose intervals pass the test, so failing
groups are excluded from the result entirely; concretely, the group with
intervals [10, 60, 5] fails the test and yields an empty subscriptions list. -/
theorem regularity_excludes_C1 :
    (∀ l : List ℤ, l ≠ [] →
      (isRegularPattern l = true ↔
        (7/10 : ℚ) * l.length ≤
          l.countP fun i => decide (|(i : ℚ) - meanOf l| ≤ (2/10) * meanOf l))) ∧
    (∀ (txs : List Tx) (cutoff : ℤ) (minA maxA : ℚ) (sub : Subscription),
      sub ∈ analyzeForSubscriptions txs cutoff minA maxA →
      ∃ k ∈ groupKeys txs cutoff minA maxA,
        isRegularPattern (intervalsOf (sortDates (groupDates txs cutoff minA maxA k))) =
          true ∧
        sub = mkSubscription k (sortDates (groupDates txs cutoff minA maxA k))) ∧
    intervalsOf (sortDates (groupDates irregularTxs 0 1 1000 ("Gym Plus", false, 5000))) =
      [10, 60, 5] ∧
    isRegularPattern [10, 60, 5] = false ∧
    analyzeForSubscriptions irregularTxs 0 1 1000 = [] := by
  refine ⟨isRegularPattern_iff, ?_, by rw [irr_dates, irr_sorted, irr_intervals],
    irr_notRegular, irr_empty⟩
  intro txs cutoff minA maxA sub hsub
  rw [mem_analyzeForSubscriptions] at hsub
  obtain ⟨k, hk, ⟨hlen, hreg⟩, rfl⟩ := hsub
  exact ⟨k, hk, hreg, rfl⟩

/-- Witness for C1: the irregular intervals [10, 60, 5] instantiate the 70%
formulation, and the Netflix subscription emitted for `regularTxs` comes from
a group passing the test. -/
theorem regularity_excludes_C1_witness :
    (isRegularPattern [10, 60, 5] = true ↔
      (7/10 : ℚ) * ([10, 60, 5] : List ℤ).length ≤
        ([10, 60, 5] : List ℤ).countP
          fun i => decide (|(i : ℚ) - meanOf [10, 60, 5]| ≤ (2/10) * meanOf [10, 60, 5])) ∧
    (∃ k ∈ groupKeys regularTxs 0 1 1000,
      isRegularPattern (intervalsOf (sortDates (groupDates regularTxs 0 1 1000 k))) =
        true ∧
      mkSubscription ("Netflix", false, 1600) [0, 2592000, 5184000, 7776000] =
        mkSubscription k (sortDates (groupDates regularTxs 0 1 1000 k))) :=
  ⟨regularity_excludes_C1.1 [10, 60, 5] (by decide),
   regularity_excludes_C1.2.1 regularTxs 0 1 1000
     (mkSubscription ("Netflix", false, 1600) [0, 2592000, 5184000, 7776000])
     (by rw [reg_result]; exact List.mem_singleton_self _)⟩

/-- On a nonnegative amount the rendered 2-decimal string has no sign and its
cent value rounds the amount times 100. -/
lemma fmtF2_nonneg (q : ℚ) (h : 0 ≤ q) : fmtF2 q = (false, roundEven (q * 100)) := by
  simp [fmtF2, decide_eq_false (not_lt.mpr h), abs_of_nonneg h]

/-- C3: two qualifying outgoing transactions land in the same candidate group
iff they have the identical merchant string and their amounts render to the
same 2-decimal string; 9.99 and 9.994 render alike while 9.99 and 10.00 do
not; and every emitted subscription has at least 2 occurrences (groups with
fewer are discarded). -/
theorem grouping_key_C3 :
    (∀ (cutoff : ℤ) (minA maxA : ℚ) (t1 t2 : Tx),
      qualifies cutoff minA maxA t1 = true → qualifies cutoff minA maxA t2 = true →
      (keyOf t1 = keyOf t2 ↔
        merchantOf t1 = merchantOf t2 ∧ fmtF2 t1.amount = fmtF2 t2.amount)) ∧
    fmtF2 (999/100) = fmtF2 (9994/1000) ∧
    fmtF2 (999/100) ≠ fmtF2 10 ∧
    (∀ (txs : List Tx) (cutoff : ℤ) (minA maxA : ℚ) (sub : Subscription),
      sub ∈ analyzeForSubscriptions txs cutoff minA maxA → 2 ≤ sub.occurrences) := by
  refine ⟨fun cutoff minA maxA t1 t2 _ _ => by simp [keyOf, Prod.ext_iff], ?_, ?_, ?_⟩
  · rw [fmtF2_nonneg _ (by norm_num), fmtF2_nonneg _ (by norm_num)]
    norm_num [roundEven]
  · rw [fmtF2_nonneg (999/100) (by norm_num), fmtF2_nonneg 10 (by norm_num)]
    norm_num [roundEven, Prod.ext_iff]
  · intro txs cutoff minA maxA sub hsub
    rw [mem_analyzeForSubscriptions] at hsub
    obtain ⟨k, hk, ⟨hlen, hreg⟩, rfl⟩ := hsub
    simpa [mkSubscription] using hlen

/-- Witness for C3: the 9.99 and 9.994 Spotify payments both qualify and the
grouping condition degenerates to merchant and rendered-amount agreement. -/
theorem grouping_key_C3_witness :
    keyOf spotifyA = keyOf spotifyB ↔
      merchantOf spotifyA = merchantOf spotifyB ∧
        fmtF2 spotifyA.amount = fmtF2 spotifyB.amount :=
  grouping_key_C3.1 0 1 1000 spotifyA spotifyB
    (by norm_num [qualifies, spotifyA]) (by norm_num [qualifies, spotifyB])

lemma calculateConfidence_cases (n : ℕ) (l : List ℤ) :
    (calculateConfidence n l = "high" ↔ 4 ≤ n ∧ isRegularPattern l = true) ∧
    (calculateConfidence n l = "medium" ↔
      ¬(4 ≤ n ∧ isRegularPattern l = true) ∧ 3 ≤ n) ∧
    (calculateConfidence n l = "low" ↔
      ¬(4 ≤ n ∧ isRegularPattern l = true) ∧ n < 3) := by
  unfold calculateConfidence
  split_ifs with h1 h2 <;> simp_all

/-- C4: confidence is "high" iff occurrences ≥ 4 and the regularity test
passes, "medium" iff occurrences ≥ 3 otherwise, "low" otherwise; and since
every emitted subscription passed the regularity test, in the output
confidence is "high" iff occurrences ≥ 4, "medium" iff occurrences = 3, and
"low" iff occurrences = 2. -/
theorem confidence_C4 :
    (∀ (n : ℕ) (l : List ℤ),
      (calculateConfidence n l = "high" ↔ 4 ≤ n ∧ isRegularPattern l = true) ∧
      (calculateConfidence n l = "medium" ↔
        ¬(4 ≤ n ∧ isRegularPattern l = true) ∧ 3 ≤ n) ∧
      (calculateConfidence n l = "low" ↔
        ¬(4 ≤ n ∧ isRegularPattern l = true) ∧ n < 3)) ∧
    (∀ (txs : List Tx) (cutoff : ℤ) (minA maxA : ℚ) (sub : Subscription),
      sub ∈ analyzeForSubscriptions txs cutoff minA maxA →
      (sub.confidence = "high" ↔ 4 ≤ sub.occurrences) ∧
      (sub.confidence = "medium" ↔ sub.occurrences = 3) ∧
      (sub.confidence = "low" ↔ sub.occurrences = 2)) := by
  refine ⟨calculateConfidence_cases, ?_⟩
  intro txs cutoff minA maxA sub hsub
  rw [mem_analyzeForSubscriptions] at hsub
  obtain ⟨k, hk, ⟨hlen, hreg⟩, rfl⟩ := hsub
  have h := calculateConfidence_cases
    (sortDates (groupDates txs cutoff minA maxA k)).length
    (intervalsOf (sortDates (groupDates txs cutoff minA maxA k)))
  rw [hreg] at h
  simp only [eq_self_iff_true, and_true] at h
  simp only [mkSubscription] at *
  refine ⟨by rw [h.1], ?_, ?_⟩
  · rw [h.2.1]
    omega
  · rw [h.2.2]
    omega

/-- Witness for C4: the emitted Netflix subscription (4 occurrences, regular)
instantiates the output-confidence characterization. -/
theorem confidence_C4_witness :
    ((mkSubscription ("Netflix", false, 1600) [0, 2592000, 5184000, 7776000]).confidence =
        "high" ↔
      4 ≤ (mkSubscription ("Netflix", false, 1600) [0, 2592000, 5184000, 7776000]).occurrences) ∧
    ((mkSubscription ("Netflix", false, 1600) [0, 2592000, 5184000, 7776000]).confidence =
        "medium" ↔
      (mkSubscription ("Netflix", false, 1600) [0, 2592000, 5184000, 7776000]).occurrences = 3) ∧
    ((mkSubscription ("Netflix", false, 1600) [0, 2592000, 5184000, 7776000]).confidence =
        "low" ↔
      (mkSubscription ("Netflix", false, 1600) [0, 2592000, 5184000, 7776000]).occurrences = 2) :=
  confidence_C4.2 regularTxs 0 1 1000
    (mkSubscription ("Netflix", false, 1600) [0, 2592000, 5184000, 7776000])
    (by rw [reg_result]; exact List.mem_singleton_self _)

/-- C8: with zero subscriptions the warnings list is exactly the single
none-detected message; otherwise it begins with the total-monthly-cost
message, followed by one consolidation suggestion per fixed bucket
(streaming, music, cloud, fitness, software, in that order) that at least 2
detected merchants match, then an inactivity warning for every subscription
with fewer than 3 occurrences whose last payment date lies more than 90 days
before now, and finally a 10%-savings tip exactly when the total monthly cost
exceeds 50. -/
theorem warnings_order_C8 :
    (∀ now : ℤ, generateWarnings now [] = [Warning.noneDetected]) ∧
    (∀ (now : ℤ) (subs : List Subscription), subs ≠ [] →
      generateWarnings now subs =
        Warning.totalMonthly (calculateTotalMonthlyCost subs) ::
          (knownPatterns.filterMap fun p =>
            if 2 ≤ (bucketMerchants subs p.2).length then
              some (Warning.consolidation p.1 (bucketMerchants subs p.2))
            else none) ++
          ((subs.filter fun s => decide (s.occurrences < 3) &&
              decide ((90 : ℚ) < ((now : ℚ) - (lastDayOf s : ℚ) * 86400) / 86400)).map
            fun s => Warning.inactive s.merchant (lastDayOf s)) ++
          (if 50 < calculateTotalMonthlyCost subs then
            [Warning.savingsTip (round2away (calculateTotalMonthlyCost subs * (1/10)))]
          else [])) := by
  constructor
  · intro now
    rfl
  · intro now subs hs
    rw [generateWarnings, if_neg hs]
    rfl

/-- Witness for C8: two streaming subscriptions with total monthly cost 70,
one of them stale, produce the total message, a streaming consolidation
suggestion, one inactivity warning, and the savings tip, in that order. -/
theorem warnings_order_C8_witness :
    generateWarnings 8640000 [streamSub1, streamSub2] =
      [Warning.totalMonthly 70,
       Warning.consolidation "streaming" ["Netflix", "Hulu Plus"],
       Warning.inactive "Hulu Plus" 0,
       Warning.savingsTip 7] := by
  have hf : freqScale "monthly" = 1 := rfl
  have hcost : calculateTotalMonthlyCost [streamSub1, streamSub2] = 70 := by
    norm_num [calculateTotalMonthlyCost, monthlyAccum, streamSub1, streamSub2, hf,
      round2away, goRound]
  have hcons : (knownPatterns.filterMap fun p =>
      if 2 ≤ (bucketMerchants [streamSub1, streamSub2] p.2).length then
        some (Warning.consolidation p.1 (bucketMerchants [streamSub1, streamSub2] p.2))
      else none) = [Warning.consolidation "streaming" ["Netflix", "Hulu Plus"]] := by
    decide
  have hld : lastDayOf streamSub2 = 0 := by decide
  have h1 : (decide (streamSub1.occurrences < 3) &&
      decide ((90 : ℚ) <
        (((8640000 : ℤ) : ℚ) - ((lastDayOf streamSub1 : ℤ) : ℚ) * 86400) / 86400)) = false := by
    simp [streamSub1]
  have h2 : (decide (streamSub2.occurrences < 3) &&
      decide ((90 : ℚ) <
        (((8640000 : ℤ) : ℚ) - ((lastDayOf streamSub2 : ℤ) : ℚ) * 86400) / 86400)) = true := by
    rw [hld]
    norm_num [streamSub2]
  have hfil : ([streamSub1, streamSub2].filter fun s => decide (s.occurrences < 3) &&
      decide ((90 : ℚ) <
        (((8640000 : ℤ) : ℚ) - ((lastDayOf s : ℤ) : ℚ) * 86400) / 86400)) = [streamSub2] := by
    simp only [List.filter_cons, List.filter_nil, h1, h2]
    rfl
  rw [warnings_order_C8.2 8640000 [streamSub1, streamSub2] (by simp), hcost, hcons, hfil]
  have hm2 : streamSub2.merchant = "Hulu Plus" := rfl
  have htip : round2away ((70 : ℚ) * (1/10)) = 7 := by norm_num [round2away, goRound]
  have htip2 : round2away (7 : ℚ) = 7 := by norm_num [round2away, goRound]
  norm_num [hld, hm2, htip, htip2, List.map]
